import Mathlib

/-!
# Verification of the htmxFinal web server (src/main.go)

A shallow embedding of the Go source: the two process-wide maps
(`users : email ↦ password`, `sessions : sessionID ↦ email`), the five
HTTP handlers, and the weather-API JSON translation.  Go maps are
modelled as association lists whose operations mirror Go map semantics
(lookup returns the unique binding; assignment replaces any existing
binding; delete removes it).  The mutex serialises handler bodies, so
each handler is a pure function from the request data and the shared
state to a new state and a response.
-/

namespace HtmxFinal

/-- A Go `map[string]string`, as an association list. -/
abbrev Store := List (String × String)

/-- Go map read: `v, ok := m[k]` (first binding wins; operations below keep keys unique). -/
def Store.find (s : Store) (k : String) : Option String :=
  List.lookup k s

/-- Go `_, ok := m[k]`. -/
def Store.contains (s : Store) (k : String) : Bool :=
  (Store.find s k).isSome

/-- Go map assignment `m[k] = v`: replaces any existing binding for `k`. -/
def Store.set (s : Store) (k v : String) : Store :=
  (k, v) :: s.filter (fun p => p.1 != k)

/-- Go `delete(m, k)`. -/
def Store.erase (s : Store) (k : String) : Store :=
  s.filter (fun p => p.1 != k)

/-- The shared mutable state of the process: `users` and `sessions` (main.go lines 20-21). -/
structure ServerState where
  users : Store
  sessions : Store
deriving DecidableEq, Repr

/-- The empty initial state (`map[string]string{}` literals). -/
def initialState : ServerState := ⟨[], []⟩

/-- HTTP request methods relevant to the handlers. -/
inductive Method
  | get
  | post
  | put
  | delete
  | head
  | patch
deriving DecidableEq, Repr

/-- What a handler writes to the response: a rendered template (with its
data), a redirect, an `http.Error` plain-text body, or nothing (a handler
that falls through both method branches writes no body: 200 empty). -/
inductive Body
  | home (loggedIn : Bool) (email : Option String)
  | loginForm
  | signupForm
  | errorPage (message : String)
  | weatherPage (city temperature weather humidity windSpeed : String)
  | httpError (message : String)
  | redirect (location : String)
  | empty
deriving DecidableEq, Repr

/-- An `http.SetCookie` call. -/
structure SetCookie where
  name : String
  value : String
  path : String
  maxAge : Option Int
deriving DecidableEq, Repr

/-- The observable response: status code, body, and cookies set. -/
structure Response where
  status : Nat
  body : Body
  cookies : List SetCookie
deriving DecidableEq, Repr

/-- Result of running a state-touching handler: new shared state plus response. -/
structure HandlerOut where
  state : ServerState
  response : Response
deriving DecidableEq, Repr

/-- `homeHandler` (main.go lines 54-69).  It never inspects the request
method; it reads the `session_id` cookie, resolves it in `sessions`,
and renders `home.html` with the login flag and email. -/
def homeHandler (_m : Method) (cookie : Option String) (st : ServerState) : HandlerOut :=
  match cookie with
  | some sid =>
    match Store.find st.sessions sid with
    | some email => ⟨st, ⟨200, .home true (some email), []⟩⟩
    | none => ⟨st, ⟨200, .home false none, []⟩⟩
  | none => ⟨st, ⟨200, .home false none, []⟩⟩

/-- `loginHandler` (main.go lines 71-100).  `token` stands for the
session ID the code derives from `time.Now().UnixNano()`. -/
def loginHandler (m : Method) (email password token : String) (st : ServerState) : HandlerOut :=
  match m with
  | .get => ⟨st, ⟨200, .loginForm, []⟩⟩
  | .post =>
    match Store.find st.users email with
    | some storedPassword =>
      if storedPassword ≠ password then
        ⟨st, ⟨401, .httpError "Invalid email or password", []⟩⟩
      else
        ⟨⟨st.users, Store.set st.sessions token email⟩,
         ⟨303, .redirect "/", [⟨"session_id", token, "/", none⟩]⟩⟩
    | none => ⟨st, ⟨401, .httpError "Invalid email or password", []⟩⟩
  | _ => ⟨st, ⟨200, .empty, []⟩⟩

/-- `logoutHandler` (main.go lines 102-118).  Deletes the session named
by the cookie (if the cookie is present), clears the cookie with
`MaxAge = -1`, and redirects home; it never inspects the method. -/
def logoutHandler (cookie : Option String) (st : ServerState) : HandlerOut :=
  let st' : ServerState :=
    match cookie with
    | some sid => ⟨st.users, Store.erase st.sessions sid⟩
    | none => st
  ⟨st', ⟨303, .redirect "/", [⟨"session_id", "", "/", some (-1)⟩]⟩⟩

/-- `signupHandler` (main.go lines 120-145). -/
def signupHandler (m : Method) (email password : String) (st : ServerState) : HandlerOut :=
  match m with
  | .get => ⟨st, ⟨200, .signupForm, []⟩⟩
  | .post =>
    if Store.contains st.users email then
      ⟨st, ⟨409, .httpError "User already exists", []⟩⟩
    else
      ⟨⟨Store.set st.users email password, st.sessions⟩,
       ⟨303, .redirect "/login", []⟩⟩
  | _ => ⟨st, ⟨200, .empty, []⟩⟩

/-! ## JSON values and the Go `encoding/json` dynamic view

`json.Unmarshal` into `map[string]interface{}` yields `nil` for JSON
`null`, `float64` for numbers, `string`, `[]interface{}`,
`map[string]interface{}`.  We model a JSON number by its decimal
literal: `num m e` is the value `m × 10⁻ᵉ` (so `21.5` is `num 215 1`
and `40` is `num 40 0`), covering exactly the decimals a `float64`
represents exactly. -/

inductive JSON
  | null
  | bool (b : Bool)
  | num (m : Int) (e : Nat)
  | str (s : String)
  | arr (elems : List JSON)
  | obj (fields : List (String × JSON))

/-- Go map read `result[k]` on a decoded object: a missing key yields the
`nil` interface, and so does a JSON `null` value; both are `none` here. -/
def goIndex (fields : List (String × JSON)) (k : String) : Option JSON :=
  match List.lookup k fields with
  | some .null => none
  | x => x

/-- The type assertion `.(map[string]interface{})`: `none` means the
assertion panics (wrong dynamic type or `nil`). -/
def asObj : Option JSON → Option (List (String × JSON))
  | some (.obj f) => some f
  | _ => none

/-- The type assertion `.(float64)`, keeping the exact decimal value. -/
def asFloat : Option JSON → Option (Int × Nat)
  | some (.num m e) => some (m, e)
  | _ => none

/-- The type assertion `.([]interface{})`. -/
def asArr : Option JSON → Option (List JSON)
  | some (.arr xs) => some xs
  | _ => none

/-- The type assertion `.(string)`. -/
def asStr : Option JSON → Option String
  | some (.str s) => some s
  | _ => none

/-! ## `fmt` verb formatting on decoded values -/

/-- Left-pad a string with zeros to the given length. -/
def padZeros (n : Nat) (s : String) : String :=
  if s.length < n then String.mk (List.replicate (n - s.length) '0') ++ s else s

/-- Powers of ten, by structural recursion. -/
def pow10 : Nat → Nat
  | 0 => 1
  | n + 1 => 10 * pow10 n

/-- Strip trailing decimal zeros from `(m, e)` (representing `m × 10⁻ᵉ`),
so the rendering is the shortest exact decimal, as Go's `%v` prints. -/
def normNum : Int → Nat → Int × Nat
  | m, 0 => (m, 0)
  | m, e + 1 => if m % 10 = 0 then normNum (m / 10) e else (m, e + 1)

/-- Decimal rendering of `m × 10⁻ᵉ`, as Go's `%v` prints a `float64`
that is an exact decimal (shortest exact form, no exponent notation for
the magnitudes at hand). -/
def decString (m : Int) (e : Nat) : String :=
  let p := normNum m e
  if p.2 = 0 then toString p.1
  else
    let sign := if p.1 < 0 then "-" else ""
    let a := p.1.natAbs
    sign ++ toString (a / pow10 p.2) ++ "." ++ padZeros p.2 (toString (a % pow10 p.2))

/-- `fmt.Sprintf("%v", x)` on an `interface{}` read out of the decoded
map.  A `nil` interface prints `<nil>`; compound values never occur on
the paths the claims exercise and get their Go-style prefix forms. -/
def fmtV : Option JSON → String
  | some (.num m e) => decString m e
  | some (.str s) => s
  | some (.bool b) => if b then "true" else "false"
  | some .null => "<nil>"
  | some (.arr _) => "["
  | some (.obj _) => "map["
  | none => "<nil>"

/-- `fmt.Sprintf("%s", x)` on an `interface{}`: prints the string, or a
`%!s` error form for a non-string (including `nil`). -/
def fmtS : Option JSON → String
  | some (.str s) => s
  | _ => "%!s(<nil>)"

/-- The Go comparison `apiError["type"] == "rate_limit_reached"`: an
interface value equals the string constant exactly when its dynamic type
is `string` and the contents agree. -/
def isRateLimit : Option JSON → Bool
  | some (.str s) => s = "rate_limit_reached"
  | _ => false

/-- `a / b` rounded half to even (`b > 0`), as `fmt`'s correctly-rounded
float formatting behaves on exactly representable ties. -/
def divRoundHalfEven (a b : Int) : Int :=
  let q := a.fdiv b
  let r := a - q * b
  if 2 * r < b then q
  else if 2 * r > b then q + 1
  else if q % 2 = 0 then q else q + 1

/-- `fmt.Sprintf("%.1f", x)` on the exact decimal `m × 10⁻ᵉ`: one digit
after the decimal point. -/
def fmtF1 (m : Int) (e : Nat) : String :=
  let n : Int :=
    match e with
    | 0 => m * 10
    | e + 1 => divRoundHalfEven m (pow10 e)
  let sign := if m < 0 then "-" else ""
  sign ++ toString (n.natAbs / 10) ++ "." ++ toString (n.natAbs % 10)

/-! ## The weather handler (main.go lines 147-223) -/

/-- The display fields assembled for `weather_result.html`. -/
structure WeatherData where
  city : String
  temperature : String
  weather : String
  humidity : String
  windSpeed : String
deriving DecidableEq, Repr

/-- The success path of `weatherHandler` (main.go lines 205-214): a chain
of unchecked type assertions over the decoded object.  `none` means one
of them panics at runtime (missing key / `null` / wrong dynamic type /
index 0 of an empty slice).  Note the temperature suffix: the source
literal at line 210 holds the bytes `c3 82 c2 b0` — the two characters
`Â°`, a double-encoded degree sign — before `C`. -/
def successPath (result : List (String × JSON)) : Option WeatherData :=
  match asObj (goIndex result "current") with
  | none => none
  | some current =>
    match asObj (goIndex result "location") with
    | none => none
    | some location =>
      match asFloat (goIndex current "temperature") with
      | none => none
      | some temp =>
        match asArr (goIndex current "weather_descriptions") with
        | none => none
        | some [] => none
        | some (d :: _) =>
          match asStr (some d) with
          | none => none
          | some w =>
            some ⟨fmtS (goIndex location "name") ++ ", " ++ fmtS (goIndex location "country"),
                  fmtF1 temp.1 temp.2 ++ "Â°C",
                  w,
                  fmtV (goIndex current "humidity") ++ "%",
                  fmtV (goIndex current "wind_speed") ++ " km/h"⟩

/-- The outcome of the upstream `http.Get` and body read, seen by the
handler after line 162: transport error, body read error, or the body
itself (which `json.Unmarshal` then parses — `badJSON` covers a body
that is not valid JSON). -/
inductive Upstream
  | transportError
  | readError
  | badJSON
  | body (j : JSON)

/-- The handler either writes a response or panics in an unchecked type
assertion. -/
inductive WeatherResult
  | resp (r : Response)
  | panic
deriving DecidableEq, Repr

/-- Result of `weatherHandler` plus whether the outbound `http.Get` at
line 162 was reached. -/
structure WeatherOutcome where
  result : WeatherResult
  networkCalled : Bool
deriving DecidableEq, Repr

/-- `weatherHandler` (main.go lines 147-223).  `city` is the query
parameter, `apiKey` the `WEATHER_API_KEY` environment value, `upstream`
what the network returns when called. -/
def weatherHandler (m : Method) (city apiKey : String) (upstream : Upstream) : WeatherOutcome :=
  if m ≠ .get then
    ⟨.resp ⟨405, .httpError "Invalid request method", []⟩, false⟩
  else if city = "" ∨ apiKey = "" then
    ⟨.resp ⟨400, .httpError "Missing city or API key", []⟩, false⟩
  else
    match upstream with
    | .transportError => ⟨.resp ⟨500, .httpError "Failed to fetch weather", []⟩, true⟩
    | .readError => ⟨.resp ⟨500, .httpError "Failed to read weather data", []⟩, true⟩
    | .badJSON => ⟨.resp ⟨500, .httpError "Failed to decode weather data", []⟩, true⟩
    | .body j =>
      match j with
      | .obj result =>
        match goIndex result "error" with
        | some errJ =>
          match asObj (some errJ) with
          | none => ⟨.panic, true⟩
          | some apiError =>
            if isRateLimit (List.lookup "type" apiError) then
              ⟨.resp ⟨200, .errorPage "Weather API request limit reached. Please try again later.", []⟩, true⟩
            else
              ⟨.resp ⟨200, .errorPage "City not found. Please check your input.", []⟩, true⟩
        | none =>
          match successPath result with
          | some d => ⟨.resp ⟨200, .weatherPage d.city d.temperature d.weather d.humidity d.windSpeed, []⟩, true⟩
          | none => ⟨.panic, true⟩
      | .null =>
        match successPath [] with
        | some d => ⟨.resp ⟨200, .weatherPage d.city d.temperature d.weather d.humidity d.windSpeed, []⟩, true⟩
        | none => ⟨.panic, true⟩
      | _ => ⟨.resp ⟨500, .httpError "Failed to decode weather data", []⟩, true⟩

/-! ## Routing and reachable states -/

/-- The handlers registered on the default mux (main.go lines 40-44). -/
inductive Route
  | home
  | signup
  | login
  | logout
  | weather
deriving DecidableEq, Repr

/-- `http.HandleFunc` dispatch: the exact paths registered at lines
40-44; the pattern `"/"` catches every other path. -/
def mux (path : String) : Route :=
  if path = "/signup" then .signup
  else if path = "/login" then .login
  else if path = "/logout" then .logout
  else if path = "/weather" then .weather
  else .home

/-- One request to a state-touching route, with the data the handler
reads from it (`token` is the session ID minted at line 90). -/
inductive Op
  | signup (m : Method) (email password : String)
  | login (m : Method) (email password token : String)
  | logout (cookie : Option String)
  | home (m : Method) (cookie : Option String)

/-- The state transition a request performs. -/
def applyOp (st : ServerState) : Op → ServerState
  | .signup m e p => (signupHandler m e p st).state
  | .login m e p t => (loginHandler m e p t st).state
  | .logout c => (logoutHandler c st).state
  | .home m c => (homeHandler m c st).state

/-- The state after a sequence of requests from process start. -/
def runOps (ops : List Op) : ServerState :=
  ops.foldl applyOp initialState

/-- Every email stored in a session belongs to a registered user. -/
def SessionInv (st : ServerState) : Prop :=
  ∀ p ∈ st.sessions, Store.contains st.users p.2 = true

/-- The decoded object has the shape the success path's unchecked type
assertions assume: `current` and `location` objects, a numeric
`current.temperature`, and a non-empty `current.weather_descriptions`
array whose first element is a string. -/
def expectedShape (fields : List (String × JSON)) : Bool :=
  match asObj (goIndex fields "current"), asObj (goIndex fields "location") with
  | some current, some _ =>
    (asFloat (goIndex current "temperature")).isSome &&
    (match asArr (goIndex current "weather_descriptions") with
     | some (d :: _) => (asStr (some d)).isSome
     | _ => false)
  | _, _ => false

/-- The stubbed upstream body of the specification's Paris test:
`{"current":{"temperature":21.5,"weather_descriptions":["Sunny"],
"humidity":40,"wind_speed":10},"location":{"name":"Paris","country":"France"}}`. -/
def parisFields : List (String × JSON) :=
  [("current", .obj [("temperature", .num 215 1),
                     ("weather_descriptions", .arr [.str "Sunny"]),
                     ("humidity", .num 40 0),
                     ("wind_speed", .num 10 0)]),
   ("location", .obj [("name", .str "Paris"), ("country", .str "France")])]

/-! ## Store lemmas -/

theorem Store.find_set_self (s : Store) (k v : String) :
    Store.find (Store.set s k v) k = some v := by
  simp [Store.find, Store.set, List.lookup]

theorem Store.lookup_filter_ne (s : Store) (k k' : String) (h : k' ≠ k) :
    List.lookup k' (s.filter fun p => p.1 != k) = List.lookup k' s := by
  induction s with
  | nil => rfl
  | cons hd tl ih =>
    obtain ⟨a, b⟩ := hd
    rcases eq_or_ne a k with rfl | hk
    · rw [List.filter_cons]
      simp only [bne_self_eq_false, Bool.false_eq_true, if_false]
      rw [List.lookup, beq_eq_false_iff_ne.mpr h]
      exact ih
    · rw [List.filter_cons]
      simp only [bne_iff_ne, ne_eq, hk, not_false_eq_true, decide_True, if_true]
      by_cases hk' : k' = a
      · subst hk'
        rw [List.lookup, List.lookup, beq_self_eq_true]
      · rw [List.lookup, List.lookup, beq_eq_false_iff_ne.mpr hk']
        exact ih

theorem Store.find_set_ne (s : Store) (k k' v : String) (h : k' ≠ k) :
    Store.find (Store.set s k v) k' = Store.find s k' := by
  rw [Store.find, Store.set, List.lookup, beq_eq_false_iff_ne.mpr h]
  exact Store.lookup_filter_ne s k k' h

theorem Store.lookup_filter_self (s : Store) (k : String) :
    List.lookup k (s.filter fun p => p.1 != k) = none := by
  induction s with
  | nil => rfl
  | cons hd tl ih =>
    obtain ⟨a, b⟩ := hd
    rcases eq_or_ne a k with rfl | hk
    · rw [List.filter_cons]
      simp only [bne_self_eq_false, Bool.false_eq_true, if_false]
      exact ih
    · rw [List.filter_cons]
      simp only [bne_iff_ne, ne_eq, hk, not_false_eq_true, decide_True, if_true]
      rw [List.lookup, beq_eq_false_iff_ne.mpr (Ne.symm hk)]
      exact ih

theorem Store.erase_of_find_none (s : Store) (k : String)
    (h : Store.find s k = none) : Store.erase s k = s := by
  induction s with
  | nil => rfl
  | cons hd tl ih =>
    obtain ⟨a, b⟩ := hd
    rcases eq_or_ne k a with rfl | hk
    · rw [Store.find, List.lookup, beq_self_eq_true] at h
      exact absurd h (by simp)
    · rw [Store.find, List.lookup, beq_eq_false_iff_ne.mpr hk] at h
      have htl : Store.erase tl k = tl := ih h
      rw [Store.erase] at htl ⊢
      rw [List.filter_cons]
      simp only [bne_iff_ne, ne_eq, Ne.symm hk, not_false_eq_true, decide_True, if_true]
      rw [htl]

theorem Store.contains_set_of_contains (s : Store) (k k' v : String)
    (h : Store.contains s k' = true) : Store.contains (Store.set s k v) k' = true := by
  rcases eq_or_ne k' k with rfl | hk
  · simp [Store.contains, Store.find_set_self]
  · rw [Store.contains, Store.find_set_ne s k k' v hk]
    exact h

theorem Store.mem_set (s : Store) (k v : String) (p : String × String)
    (hp : p ∈ Store.set s k v) : p = (k, v) ∨ p ∈ s := by
  rcases List.mem_cons.mp hp with h | h
  · exact Or.inl h
  · exact Or.inr (List.mem_filter.mp h).1

theorem Store.mem_erase (s : Store) (k : String) (p : String × String)
    (hp : p ∈ Store.erase s k) : p ∈ s :=
  (List.mem_filter.mp hp).1

/-! ## Handler case lemmas -/

theorem loginPost_success (email password token : String) (st : ServerState)
    (h : Store.find st.users email = some password) :
    loginHandler .post email password token st =
      ⟨⟨st.users, Store.set st.sessions token email⟩,
       ⟨303, .redirect "/", [⟨"session_id", token, "/", none⟩]⟩⟩ := by
  rw [loginHandler, h]
  simp

theorem loginPost_failure (email password token : String) (st : ServerState)
    (h : Store.find st.users email ≠ some password) :
    loginHandler .post email password token st =
      ⟨st, ⟨401, .httpError "Invalid email or password", []⟩⟩ := by
  rw [loginHandler]
  cases hf : Store.find st.users email with
  | none => rfl
  | some p =>
    have hp : p ≠ password := by
      rintro rfl
      exact h hf
    simp [hp]

theorem signupPost_conflict (email password : String) (st : ServerState)
    (h : Store.contains st.users email = true) :
    signupHandler .post email password st =
      ⟨st, ⟨409, .httpError "User already exists", []⟩⟩ := by
  rw [signupHandler, if_pos h]

theorem signupPost_insert (email password : String) (st : ServerState)
    (h : Store.contains st.users email = false) :
    signupHandler .post email password st =
      ⟨⟨Store.set st.users email password, st.sessions⟩,
       ⟨303, .redirect "/login", []⟩⟩ := by
  rw [signupHandler, if_neg (by rw [h]; exact Bool.false_ne_true)]

/-! ## Claim theorems -/

/-- C1: a POST to `/login` succeeds — creating the session and
redirecting home with the `session_id` cookie — exactly when the email
is a key of the credential store and the stored password equals the
submitted password; every other (email, password) pair gets 401
Unauthorized and leaves the state (in particular the session store)
unchanged. -/
theorem login_succeeds_iff (email password token : String) (st : ServerState) :
    (Store.find st.users email = some password →
      loginHandler .post email password token st =
        ⟨⟨st.users, Store.set st.sessions token email⟩,
         ⟨303, .redirect "/", [⟨"session_id", token, "/", none⟩]⟩⟩) ∧
    (Store.find st.users email ≠ some password →
      loginHandler .post email password token st =
        ⟨st, ⟨401, .httpError "Invalid email or password", []⟩⟩) :=
  ⟨loginPost_success email password token st, loginPost_failure email password token st⟩

theorem login_succeeds_iff_witness :
    loginHandler .post "a@b.c" "pw" "1700" ⟨[("a@b.c", "pw")], []⟩ =
      ⟨⟨[("a@b.c", "pw")], [("1700", "a@b.c")]⟩,
       ⟨303, .redirect "/", [⟨"session_id", "1700", "/", none⟩]⟩⟩ ∧
    loginHandler .post "a@b.c" "wrong" "1700" ⟨[("a@b.c", "pw")], []⟩ =
      ⟨⟨[("a@b.c", "pw")], []⟩, ⟨401, .httpError "Invalid email or password", []⟩⟩ := by
  constructor
  · have h := (login_succeeds_iff "a@b.c" "pw" "1700" ⟨[("a@b.c", "pw")], []⟩).1 (by decide)
    rw [h]
    rfl
  · exact (login_succeeds_iff "a@b.c" "wrong" "1700" ⟨[("a@b.c", "pw")], []⟩).2 (by decide)

/-- C2: a POST to `/signup` fails with 409 Conflict exactly when the
email is already a key of the credential store, and otherwise inserts
the (email, password) pair; hence signing the same email up twice gives
success then Conflict. -/
theorem signup_conflict_iff (email password : String) (st : ServerState) :
    (Store.contains st.users email = true →
      signupHandler .post email password st =
        ⟨st, ⟨409, .httpError "User already exists", []⟩⟩) ∧
    (Store.contains st.users email = false →
      signupHandler .post email password st =
        ⟨⟨Store.set st.users email password, st.sessions⟩,
         ⟨303, .redirect "/login", []⟩⟩) ∧
    (Store.contains st.users email = false → ∀ password2 : String,
      (signupHandler .post email password2
          (signupHandler .post email password st).state).response =
        ⟨409, .httpError "User already exists", []⟩) := by
  refine ⟨signupPost_conflict email password st, signupPost_insert email password st,
    fun h password2 => ?_⟩
  rw [signupPost_insert email password st h,
    signupPost_conflict email password2 ⟨Store.set st.users email password, st.sessions⟩
      (by rw [Store.contains, Store.find_set_self]; rfl)]

theorem signup_conflict_iff_witness :
    signupHandler .post "a@b.c" "pw" initialState =
      ⟨⟨[("a@b.c", "pw")], []⟩, ⟨303, .redirect "/login", []⟩⟩ ∧
    (signupHandler .post "a@b.c" "pw2"
        (signupHandler .post "a@b.c" "pw" initialState).state).response =
      ⟨409, .httpError "User already exists", []⟩ := by
  constructor
  · have h := (signup_conflict_iff "a@b.c" "pw" initialState).2.1 (by decide)
    rw [h]
    rfl
  · exact (signup_conflict_iff "a@b.c" "pw" initialState).2.2 (by decide) "pw2"

/-- C10: a signup rejected with 409 Conflict and a login rejected with
401 Unauthorized both leave the shared state — the credential store and
the session store — exactly as they were. -/
theorem failed_auth_preserves_state (email password token : String) (st : ServerState) :
    (Store.contains st.users email = true →
      (signupHandler .post email password st).state = st ∧
      (signupHandler .post email password st).response.status = 409) ∧
    (Store.find st.users email ≠ some password →
      (loginHandler .post email password token st).state = st ∧
      (loginHandler .post email password token st).response.status = 401) := by
  constructor
  · intro h
    rw [signupPost_conflict email password st h]
    exact ⟨rfl, rfl⟩
  · intro h
    rw [loginPost_failure email password token st h]
    exact ⟨rfl, rfl⟩

theorem failed_auth_preserves_state_witness :
    (signupHandler .post "a@b.c" "pw2" ⟨[("a@b.c", "pw")], [("1700", "a@b.c")]⟩).state =
      ⟨[("a@b.c", "pw")], [("1700", "a@b.c")]⟩ ∧
    (loginHandler .post "a@b.c" "wrong" "1701" ⟨[("a@b.c", "pw")], [("1700", "a@b.c")]⟩).state =
      ⟨[("a@b.c", "pw")], [("1700", "a@b.c")]⟩ :=
  ⟨((failed_auth_preserves_state "a@b.c" "pw2" "x"
      ⟨[("a@b.c", "pw")], [("1700", "a@b.c")]⟩).1 (by decide)).1,
   ((failed_auth_preserves_state "a@b.c" "wrong" "1701"
      ⟨[("a@b.c", "pw")], [("1700", "a@b.c")]⟩).2 (by decide)).1⟩

/-- C3: at the spec's stubbed Paris response the handler renders the
weather template with City "Paris, France", Weather "Sunny", Humidity
"40%", WindSpeed "10 km/h" — but the Temperature field is "21.5Â°C",
not "21.5°C": the format string at main.go line 210 carries a
double-encoded degree sign (bytes c3 82 c2 b0 before the `C`). -/
theorem weather_paris_eval :
    weatherHandler .get "Paris" "key" (.body (.obj parisFields)) =
      ⟨.resp ⟨200, .weatherPage "Paris, France" "21.5Â°C" "Sunny" "40%" "10 km/h", []⟩,
       true⟩ ∧
    "21.5Â°C" ≠ "21.5°C" := by
  exact ⟨by decide, by decide⟩

/-- C5: with an empty city query parameter or an empty API key, a GET to
`/weather` fails with 400 BadRequest and the outbound `http.Get` is
never reached, whatever the transport would have returned. -/
theorem weather_badrequest (city key : String) (up : Upstream)
    (h : city = "" ∨ key = "") :
    weatherHandler .get city key up =
      ⟨.resp ⟨400, .httpError "Missing city or API key", []⟩, false⟩ := by
  rw [weatherHandler.eq_def, if_neg (fun hh => hh rfl), if_pos h]

theorem weather_badrequest_witness :
    weatherHandler .get "" "key" .transportError =
      ⟨.resp ⟨400, .httpError "Missing city or API key", []⟩, false⟩ :=
  weather_badrequest "" "key" .transportError (Or.inl rfl)

/-- C6: logout with token t removes t from the session store (resolving
t afterwards yields absent) and touches nothing else; logout with a
token absent from the store leaves the state unchanged (destroy is
idempotent); in both cases it clears the `session_id` cookie with
MaxAge = -1 and redirects home. -/
theorem logout_destroys_session (t : String) (st : ServerState) :
    (logoutHandler (some t) st).state.users = st.users ∧
    Store.find (logoutHandler (some t) st).state.sessions t = none ∧
    (Store.find st.sessions t = none → (logoutHandler (some t) st).state = st) ∧
    (logoutHandler (some t) st).response =
      ⟨303, .redirect "/", [⟨"session_id", "", "/", some (-1)⟩]⟩ := by
  refine ⟨rfl, ?_, fun h => ?_, rfl⟩
  · exact Store.lookup_filter_self st.sessions t
  · show (⟨st.users, Store.erase st.sessions t⟩ : ServerState) = st
    rw [Store.erase_of_find_none st.sessions t h]

theorem logout_destroys_session_witness :
    Store.find (logoutHandler (some "1700")
        ⟨[("a@b.c", "pw")], [("1700", "a@b.c")]⟩).state.sessions "1700" = none ∧
    (logoutHandler (some "9999") ⟨[("a@b.c", "pw")], [("1700", "a@b.c")]⟩).state =
      ⟨[("a@b.c", "pw")], [("1700", "a@b.c")]⟩ :=
  ⟨(logout_destroys_session "1700" ⟨[("a@b.c", "pw")], [("1700", "a@b.c")]⟩).2.1,
   (logout_destroys_session "9999" ⟨[("a@b.c", "pw")], [("1700", "a@b.c")]⟩).2.2.1
     (by decide)⟩

/-- C4: when the decoded upstream body carries a top-level error object,
the handler renders the error template — status 200, never an HTTP error
status — with the rate-limit message exactly when the error's type field
is the string "rate_limit_reached", and with the generic city-not-found
message for every other value of the type field. -/
theorem weather_error_object (city key : String)
    (fields errFields : List (String × JSON))
    (hcity : city ≠ "") (hkey : key ≠ "")
    (herr : goIndex fields "error" = some (.obj errFields)) :
    (isRateLimit (List.lookup "type" errFields) = true →
      weatherHandler .get city key (.body (.obj fields)) =
        ⟨.resp ⟨200,
          .errorPage "Weather API request limit reached. Please try again later.", []⟩,
         true⟩) ∧
    (isRateLimit (List.lookup "type" errFields) = false →
      weatherHandler .get city key (.body (.obj fields)) =
        ⟨.resp ⟨200, .errorPage "City not found. Please check your input.", []⟩,
         true⟩) := by
  constructor <;> intro h <;>
    simp [weatherHandler, hcity, hkey, herr, asObj, h]

theorem weather_error_object_witness :
    weatherHandler .get "Paris" "key"
        (.body (.obj [("error", .obj [("type", .str "rate_limit_reached")])])) =
      ⟨.resp ⟨200,
        .errorPage "Weather API request limit reached. Please try again later.", []⟩,
       true⟩ ∧
    weatherHandler .get "Paris" "key"
        (.body (.obj [("error", .obj [("type", .str "anything_else")])])) =
      ⟨.resp ⟨200, .errorPage "City not found. Please check your input.", []⟩,
       true⟩ :=
  ⟨(weather_error_object "Paris" "key"
      [("error", .obj [("type", .str "rate_limit_reached")])]
      [("type", .str "rate_limit_reached")]
      (by decide) (by decide) rfl).1 (by decide),
   (weather_error_object "Paris" "key"
      [("error", .obj [("type", .str "anything_else")])]
      [("type", .str "anything_else")]
      (by decide) (by decide) rfl).2 (by decide)⟩

/-- C7 fails on the code: the home handler never inspects the request
method, so a POST to `/` (which the mux routes to the home handler) is
served the home page with status 200, not 405 MethodNotAllowed. -/
theorem post_home_counterexample :
    mux "/" = .home ∧
    (homeHandler .post none initialState).response.status = 200 ∧
    (homeHandler .post none initialState).response.status ≠ 405 :=
  ⟨by decide, by decide, by decide⟩

/-- C7 amended: only `/weather` enforces its method restriction — every
non-GET request to it yields 405 MethodNotAllowed without reaching the
network.  The other routes never answer 405: `/` is served identically
for every method (so a POST renders the home page with 200), and a
method other than GET or POST on `/login` or `/signup` falls through to
an empty 200 response. -/
theorem method_enforcement (m : Method) (city key : String) (up : Upstream)
    (cookie : Option String) (email password token : String) (st : ServerState)
    (hm : m ≠ .get) :
    (mux "/weather" = .weather ∧
      weatherHandler m city key up =
        ⟨.resp ⟨405, .httpError "Invalid request method", []⟩, false⟩) ∧
    (mux "/" = .home ∧
      homeHandler m cookie st = homeHandler .get cookie st ∧
      (homeHandler m cookie st).response.status = 200) ∧
    (m ≠ .post →
      loginHandler m email password token st = ⟨st, ⟨200, .empty, []⟩⟩ ∧
      signupHandler m email password st = ⟨st, ⟨200, .empty, []⟩⟩) := by
  refine ⟨⟨by decide, ?_⟩, ⟨by decide, rfl, ?_⟩, fun hp => ⟨?_, ?_⟩⟩
  · rw [weatherHandler.eq_def, if_pos hm]
  · rcases cookie with _ | sid
    · rfl
    · rcases hf : Store.find st.sessions sid with _ | em <;> simp [homeHandler, hf]
  · cases m <;> first | exact absurd rfl hm | exact absurd rfl hp | rfl
  · cases m <;> first | exact absurd rfl hm | exact absurd rfl hp | rfl

theorem method_enforcement_witness :
    weatherHandler .put "Paris" "key" .transportError =
      ⟨.resp ⟨405, .httpError "Invalid request method", []⟩, false⟩ ∧
    loginHandler .put "a@b.c" "pw" "1700" initialState =
      ⟨initialState, ⟨200, .empty, []⟩⟩ :=
  ⟨((method_enforcement .put "Paris" "key" .transportError none "a@b.c" "pw" "1700"
      initialState (by decide)).1).2,
   ((method_enforcement .put "Paris" "key" .transportError none "a@b.c" "pw" "1700"
      initialState (by decide)).2.2 (by decide)).1⟩

theorem successPath_isSome_of_shape (fields : List (String × JSON))
    (h : expectedShape fields = true) : (successPath fields).isSome = true := by
  rw [expectedShape] at h
  cases hc : asObj (goIndex fields "current") with
  | none => rw [hc] at h; simp at h
  | some current =>
    cases hl : asObj (goIndex fields "location") with
    | none => rw [hc, hl] at h; simp at h
    | some location =>
      rw [hc, hl] at h
      simp only [Bool.and_eq_true] at h
      obtain ⟨h1, h2⟩ := h
      cases ht : asFloat (goIndex current "temperature") with
      | none => rw [ht] at h1; simp at h1
      | some temp =>
        cases ha : asArr (goIndex current "weather_descriptions") with
        | none => rw [ha] at h2; simp at h2
        | some descs =>
          cases descs with
          | nil => rw [ha] at h2; simp at h2
          | cons d rest =>
            rw [ha] at h2
            change (asStr (some d)).isSome = true at h2
            cases hs : asStr (some d) with
            | none => rw [hs] at h2; simp at h2
            | some w => simp [successPath, hc, hl, ht, ha, hs]

/-- C8: the success path's unchecked type assertions are a genuine
runtime fault: a decoded body with no top-level error object but without
the expected shape — here the empty JSON object `{}` — makes the handler
panic instead of returning a handled error; while under the
expected-shape precondition no assertion fails and the handler writes a
response. -/
theorem weather_assertion_fault (fields : List (String × JSON)) (city key : String)
    (hcity : city ≠ "") (hkey : key ≠ "")
    (herr : goIndex fields "error" = none)
    (hshape : expectedShape fields = true) :
    (goIndex [] "error" = none ∧
      (weatherHandler .get "Paris" "key" (.body (.obj []))).result = .panic) ∧
    (weatherHandler .get city key (.body (.obj fields))).result ≠ .panic := by
  refine ⟨⟨rfl, by decide⟩, ?_⟩
  obtain ⟨d, hd⟩ := Option.isSome_iff_exists.mp (successPath_isSome_of_shape fields hshape)
  simp [weatherHandler, hcity, hkey, herr, hd]

theorem weather_assertion_fault_witness :
    (weatherHandler .get "Paris" "key" (.body (.obj parisFields))).result ≠
      WeatherResult.panic :=
  (weather_assertion_fault parisFields "Paris" "key"
    (by decide) (by decide) rfl (by decide)).2

theorem homeHandler_state (m : Method) (c : Option String) (st : ServerState) :
    (homeHandler m c st).state = st := by
  rcases c with _ | sid
  · rfl
  · rcases hf : Store.find st.sessions sid with _ | em <;> simp [homeHandler, hf]

theorem applyOp_inv (st : ServerState) (op : Op) (h : SessionInv st) :
    SessionInv (applyOp st op) := by
  cases op with
  | signup m e p =>
    cases m with
    | post =>
      show SessionInv (signupHandler .post e p st).state
      by_cases hc : Store.contains st.users e = true
      · rw [signupPost_conflict e p st hc]
        exact h
      · rw [signupPost_insert e p st (Bool.not_eq_true _ ▸ hc)]
        intro q hq
        exact Store.contains_set_of_contains st.users e q.2 p (h q hq)
    | get => exact h
    | put => exact h
    | delete => exact h
    | head => exact h
    | patch => exact h
  | login m e p t =>
    cases m with
    | post =>
      show SessionInv (loginHandler .post e p t st).state
      by_cases hf : Store.find st.users e = some p
      · rw [loginPost_success e p t st hf]
        intro q hq
        rcases Store.mem_set st.sessions t e q hq with rfl | hq'
        · show Store.contains st.users e = true
          rw [Store.contains, hf]
          rfl
        · exact h q hq'
      · rw [loginPost_failure e p t st hf]
        exact h
    | get => exact h
    | put => exact h
    | delete => exact h
    | head => exact h
    | patch => exact h
  | logout c =>
    rcases c with _ | sid
    · exact h
    · intro q hq
      exact h q (Store.mem_erase st.sessions sid q hq)
  | home m c =>
    show SessionInv (homeHandler m c st).state
    rw [homeHandler_state]
    exact h

theorem foldl_inv (ops : List Op) (st : ServerState) (h : SessionInv st) :
    SessionInv (ops.foldl applyOp st) := by
  induction ops generalizing st with
  | nil => exact h
  | cons op rest ih => exact ih (applyOp st op) (applyOp_inv st op h)

/-- C9: in every state reachable from the empty initial state by any
sequence of signup, login, logout, and home requests, every email stored
as a session value is a registered user: sessions are created only on a
successful login (whose email was found in the credential store) and
users are never deleted. -/
theorem sessions_only_registered (ops : List Op) : SessionInv (runOps ops) :=
  foldl_inv ops initialState (fun p hp => absurd hp (List.not_mem_nil p))

theorem sessions_only_registered_witness :
    SessionInv (runOps [.signup .post "a@b.c" "pw", .login .post "a@b.c" "pw" "1700"]) :=
  sessions_only_registered [.signup .post "a@b.c" "pw", .login .post "a@b.c" "pw" "1700"]

end HtmxFinal
